import Mathlib

set_option linter.unusedVariables false

/-!
Formal model of the core thermochemistry and aggregation logic of
GoodVibes v6.0 (file `goodvibes/GoodVibes v6.0.py`).

The statistical-mechanics functions (`calc_translational_energy`,
`calc_rotational_energy`, `calc_vibrational_energy`, `calc_zeropoint_energy`,
`get_free_space`, `calc_translational_entropy`, `calc_electronic_entropy`,
`calc_rotational_entropy`, `calc_rrho_entropy`, `calc_freerot_entropy`,
`calc_damp`), the per-structure evaluation `calc_bbe`, the Boltzmann
conformer averaging and PES point assembly of `get_pes`, and the
Boltzmann/ee tabulation of `main` are translated here over the reals.
File reading and text extraction are excluded collaborators: the model
receives the already-extracted numeric fields (a `ParsedRecord`), exactly
the values the parsing loop of `calc_bbe.__init__` stores before line 681.

Python floats are modelled as real numbers.  Python runtime typing is
modelled where it is load-bearing: `sp_energy` (source line 309-379)
returns a 5-tuple, and `calc_bbe` (line 720) adds that value to a float
inside a `try/except TypeError: pass`; the type `PyVal` and the addition
`pyAdd` model exactly this.
-/

namespace GoodVibes

noncomputable section

open Real

/-- PHYSICAL CONSTANTS, source line 42. -/
def GAS_CONSTANT : ℝ := 8.3144621

/-- Planck constant, source line 42. -/
def PLANCK_CONSTANT : ℝ := 6.62606957e-34

/-- Boltzmann constant, source line 42. -/
def BOLTZMANN_CONSTANT : ℝ := 1.3806488e-23

/-- Speed of light in cm/s, source line 42. -/
def SPEED_OF_LIGHT : ℝ := 2.99792458e10

/-- Avogadro constant, source line 42. -/
def AVOGADRO_CONSTANT : ℝ := 6.0221415e23

/-- Mass conversion amu to kg, source line 42. -/
def AMU_to_KG : ℝ := 1.66053886e-27

/-- Pressure of one atmosphere, source line 42. -/
def atmos : ℝ := 101.325

/-- Unit conversion J/mol to atomic units, source line 44. -/
def j_to_au : ℝ := 4.184 * 627.509541 * 1000.0

/-- Unit conversion kcal/mol to atomic units, source line 45. -/
def kcal_to_au : ℝ := 627.509541

/-- Translational energy 3/2 RT, source lines 449-456. -/
def calc_translational_energy (temperature : ℝ) : ℝ :=
  1.5 * GAS_CONSTANT * temperature

/-- Rotational energy: 0 (atomic), RT (linear), 3/2 RT (non-linear),
source lines 459-467.  The `symmno` argument is unused exactly as in the
source. -/
def calc_rotational_energy (zpe : ℝ) (symmno : ℕ) (temperature : ℝ)
    (linear : ℕ) : ℝ :=
  if zpe = 0.0 then 0.0
  else if linear = 1 then GAS_CONSTANT * temperature
  else 1.5 * GAS_CONSTANT * temperature

/-- Per-frequency factor hν·scale/(kT) used by the vibrational energy,
source line 475. -/
def vib_energy_factor (freq temperature freq_scale_factor : ℝ) : ℝ :=
  PLANCK_CONSTANT * freq * SPEED_OF_LIGHT * freq_scale_factor /
    (BOLTZMANN_CONSTANT * temperature)

/-- Vibrational energy including ZPE, source lines 470-477. -/
def calc_vibrational_energy (frequency_wn : List ℝ)
    (temperature freq_scale_factor : ℝ) : ℝ :=
  (frequency_wn.map (fun freq =>
    vib_energy_factor freq temperature freq_scale_factor * GAS_CONSTANT *
      temperature *
      (0.5 + 1.0 / (Real.exp (vib_energy_factor freq temperature
        freq_scale_factor) - 1.0)))).sum

/-- Vibrational zero-point energy, source lines 480-487. -/
def calc_zeropoint_energy (frequency_wn : List ℝ)
    (freq_scale_factor : ℝ) : ℝ :=
  (frequency_wn.map (fun freq =>
    0.5 * (PLANCK_CONSTANT * freq * SPEED_OF_LIGHT * freq_scale_factor /
      BOLTZMANN_CONSTANT) * GAS_CONSTANT)).sum

/-- Solvent table names, source line 494. -/
def solvent_list : List String :=
  ["none", "H2O", "toluene", "DMF", "AcOH", "chloroform"]

/-- Solvent molarities in mol/l, source line 495. -/
def molarity : List ℝ := [1.0, 55.6, 9.4, 12.9, 17.4, 12.5]

/-- Solvent molecular volumes in cubic Angstrom, source line 496. -/
def molecular_vol : List ℝ := [1.0, 27.944, 149.070, 77.442, 86.10, 97.0]

/-- The index selection loop of `get_free_space`, source lines 498-500:
`nsolv` starts at 0 and is set to `i` whenever the name matches entry `i`,
so any unrecognized name leaves `nsolv = 0`. -/
def nsolv_index (solv : String) : ℕ :=
  (List.range solvent_list.length).foldl
    (fun nsolv i => if solv = solvent_list.getD i "" then i else nsolv) 0

/-- Free space in bulk solvent (mL per L), source lines 490-509. -/
def get_free_space (solv : String) : ℝ :=
  let nsolv := nsolv_index solv
  let solv_molarity := molarity.getD nsolv 0
  let solv_volume := molecular_vol.getD nsolv 0
  if 0 < nsolv then
    let V_free := 8 * ((1e27 / (solv_molarity * AVOGADRO_CONSTANT)) ^
      (0.333333 : ℝ) - solv_volume ^ (0.333333 : ℝ)) ^ (3 : ℕ)
    V_free * solv_molarity * AVOGADRO_CONSTANT * 1e-24
  else 1000.0

/-- Translational entropy (Sackur-Tetrode), source lines 512-521. -/
def calc_translational_entropy (molecular_mass conc temperature : ℝ)
    (solv : String) : ℝ :=
  let lmda := (2.0 * π * molecular_mass * AMU_to_KG * BOLTZMANN_CONSTANT *
    temperature) ^ (0.5 : ℝ) / PLANCK_CONSTANT
  let freespace := get_free_space solv
  let Ndens := conc * 1000 * AVOGADRO_CONSTANT / (freespace / 1000.0)
  GAS_CONSTANT * (2.5 + Real.log (lmda ^ (3 : ℕ) / Ndens))

/-- Electronic entropy R ln(multiplicity), source lines 524-530. -/
def calc_electronic_entropy (multiplicity : ℝ) : ℝ :=
  GAS_CONSTANT * Real.log multiplicity

/-- Rotational entropy, source lines 534-556.  A one-element rotational
temperature list forces the linear branch, a two-element list (the
ambiguous linear-molecule parse) forces the `linear = 2` branch whose
entropy is 0.0; otherwise the three-temperature partition function is
used with the incoming `linear` flag. -/
def calc_rotational_entropy (zpe : ℝ) (linear : ℕ) (symmno : ℝ)
    (rotemp : List ℝ) (temperature : ℝ) : ℝ :=
  if rotemp = [0.0, 0.0, 0.0] ∨ zpe = 0.0 then 0.0
  else
    let lq : ℕ × ℝ :=
      match rotemp with
      | [r0] => (1, temperature / r0)
      | [_, _] => (2, 0.0)
      | _ => (linear, (π * temperature ^ (3 : ℕ) /
          (rotemp.getD 0 0 * rotemp.getD 1 0 * rotemp.getD 2 0)) ^ (0.5 : ℝ))
    if lq.1 = 1 then GAS_CONSTANT * (Real.log (lq.2 / symmno) + 1)
    else if lq.1 = 2 then 0.0
    else GAS_CONSTANT * (Real.log (lq.2 / symmno) + 1.5)

/-- Per-mode RRHO entropy, the body of the comprehension in
`calc_rrho_entropy`, source lines 560-567. -/
def rrho1 (freq temperature freq_scale_factor : ℝ) : ℝ :=
  let factor := PLANCK_CONSTANT * freq * SPEED_OF_LIGHT *
    freq_scale_factor / BOLTZMANN_CONSTANT / temperature
  factor * GAS_CONSTANT / (Real.exp factor - 1) -
    GAS_CONSTANT * Real.log (1 - Real.exp (-factor))

/-- RRHO entropy list, source lines 560-567. -/
def calc_rrho_entropy (frequency_wn : List ℝ)
    (temperature freq_scale_factor : ℝ) : List ℝ :=
  frequency_wn.map (fun freq => rrho1 freq temperature freq_scale_factor)

/-- Average moment of inertia used by Grimme, source line 576. -/
def Bav : ℝ := 10.0e-44

/-- Per-mode free-rotor entropy, the body of the comprehensions in
`calc_freerot_entropy`, source lines 570-581. -/
def freerot1 (freq temperature freq_scale_factor : ℝ) : ℝ :=
  let mu := PLANCK_CONSTANT /
    (8 * π ^ (2 : ℕ) * freq * SPEED_OF_LIGHT * freq_scale_factor)
  let mu_primed := mu * Bav / (mu + Bav)
  let factor := 8 * π ^ (3 : ℕ) * mu_primed * BOLTZMANN_CONSTANT *
    temperature / PLANCK_CONSTANT ^ (2 : ℕ)
  (0.5 + Real.log (factor ^ (0.5 : ℝ))) * GAS_CONSTANT

/-- Free-rotor entropy list, source lines 570-581. -/
def calc_freerot_entropy (frequency_wn : List ℝ)
    (temperature freq_scale_factor : ℝ) : List ℝ :=
  frequency_wn.map (fun freq => freerot1 freq temperature freq_scale_factor)

/-- Damping exponent `alpha = 4`, source line 585. -/
def alpha : ℕ := 4

/-- Per-mode damping value, the body of the comprehension in `calc_damp`,
source lines 584-587. -/
def damp1 (freq FREQ_CUTOFF : ℝ) : ℝ :=
  1 / (1 + (FREQ_CUTOFF / freq) ^ alpha)

/-- Damping function list, source lines 584-587. -/
def calc_damp (frequency_wn : List ℝ) (FREQ_CUTOFF : ℝ) : List ℝ :=
  frequency_wn.map (fun freq => damp1 freq FREQ_CUTOFF)

/-- Per-mode quasi-harmonic vibrational entropy selection, the loop at
source lines 703-710.  For `QH = "grimme"` the damped interpolation of
RRHO and free-rotor entropy is appended; for `QH = "truhlar"` with a
positive cutoff the RRHO value is used above the cutoff and the RRHO value
of the cutoff frequency (scale factor 1.0, from `Svib_rrqho` at line 698)
below it; with cutoff 0 the plain RRHO value is used.  Any other method
string appends nothing, as in the source. -/
def vib_entropy_modes (QH : String) (frequency_wn : List ℝ)
    (FREQ_CUTOFF temperature freq_scale_factor : ℝ) : List ℝ :=
  frequency_wn.filterMap (fun freq =>
    if QH = "grimme" then
      some (rrho1 freq temperature freq_scale_factor *
        damp1 freq FREQ_CUTOFF +
        (1 - damp1 freq FREQ_CUTOFF) *
          freerot1 freq temperature freq_scale_factor)
    else if QH = "truhlar" then
      some (if 0.0 < FREQ_CUTOFF then
          (if FREQ_CUTOFF < freq then
            rrho1 freq temperature freq_scale_factor
          else rrho1 FREQ_CUTOFF temperature 1.0)
        else rrho1 freq temperature freq_scale_factor)
    else none)

/-- A Python runtime value as far as the single-point-energy plumbing is
concerned: a float, a string, or a tuple. -/
inductive PyVal where
  | float (x : ℝ)
  | str (s : String)
  | tuple (xs : List PyVal)

/-- Python addition on `PyVal`s: float+float adds, str+str and tuple+tuple
concatenate, every mixed combination raises `TypeError`, modelled as
`none`. -/
def pyAdd : PyVal → PyVal → Option PyVal
  | .float a, .float b => some (.float (a + b))
  | .str a, .str b => some (.str (a ++ b))
  | .tuple a, .tuple b => some (.tuple (a ++ b))
  | _, _ => none

/-- Return value of `sp_energy`, source line 379:
`return spe,program,version_program,solvation_model,file` -- a 5-tuple.
The file reading that produces the components is an excluded collaborator;
the model receives the extracted components and returns the tuple the
source returns. -/
def sp_energy (spe program version_program solvation_model file : PyVal) :
    PyVal :=
  .tuple [spe, program, version_program, solvation_model, file]

/-- Warning text set at source line 671. -/
def linear_warning_msg : String :=
  "WARNING! Potential invalid calculation of linear molecule from Gaussian."

/-- Parsing of a `Rotational temperatures` line, source lines 664-674.
Inputs are the float-parses of the three value tokens (`none` meaning the
token does not parse as a float, which raises `ValueError` in the source).
If all three parse, the three temperatures are kept.  If the first token
fails (the `********` overflow of an ambiguous linear molecule), the
handler sets the warning and keeps the remaining two values; the guard
`line.strip().find('********')` is always truthy for these lines because
the stripped line starts with the words `Rotational temperatures`, so the
index returned is never 0.  (If the remaining tokens also failed to parse,
the source would raise an uncaught ValueError; that shape is modelled as a
missing rotational temperature.) -/
def parse_rotational_temperatures (t3 t4 t5 : Option ℝ) :
    Option (List ℝ) × List String :=
  match t3, t4, t5 with
  | some a, some b, some c => (some [a, b, c], [])
  | none, some b, some c => (some [b, c], [linear_warning_msg])
  | _, _, _ => (none, [linear_warning_msg])

/-- The numeric fields the parsing loop of `calc_bbe.__init__` (source
lines 593-678) has stored by the time it reaches line 681, for one
structure.  `zero_point_corr = none` and `rotemp = none` model the absent
attribute / `None` value; `rotemp`'s default when no line is found is
`some [0.0, 0.0, 0.0]` (line 593); `linear_warning` defaults to the empty
list (line 595, where the source uses the falsy empty string). -/
structure ParsedRecord where
  scf_energy : ℝ
  zero_point_corr : Option ℝ
  mult : ℝ
  molecular_mass : ℝ
  symmno : ℕ
  linear_mol : ℕ
  rotemp : Option (List ℝ)
  frequency_wn : List ℝ
  im_frequency_wn : List ℝ
  linear_warning : List String

/-- The block of thermochemical values computed when the guard at source
line 681 passes. -/
structure CompleteVals where
  enthalpy : ℝ
  zpe : ℝ
  entropy : ℝ
  qh_entropy : ℝ
  gibbs_free_energy : ℝ
  qh_gibbs_free_energy : ℝ
  im_freq : List ℝ

/-- Imaginary-frequency cutoff, defaulted to 0.0 at source line 593. -/
def im_freq_cutoff : ℝ := 0.0

/-- ZPE, rotational energy, vibrational energy, rotational entropy,
harmonic and quasi-harmonic vibrational entropy: the
frequency-dependent block of source lines 690-714, zero for a monatomic
(empty frequency list). -/
def vib_vals (zero_point_corr : ℝ) (symmno linear_mol : ℕ)
    (rotemp frequency_wn : List ℝ) (QH : String)
    (FREQ_CUTOFF temperature freq_scale_factor : ℝ) :
    ℝ × ℝ × ℝ × ℝ × ℝ × ℝ :=
  match frequency_wn with
  | [] => (0.0, 0.0, 0.0, 0.0, 0.0, 0.0)
  | _ =>
    (calc_zeropoint_energy frequency_wn freq_scale_factor,
     calc_rotational_energy zero_point_corr symmno temperature linear_mol,
     calc_vibrational_energy frequency_wn temperature freq_scale_factor,
     calc_rotational_entropy zero_point_corr linear_mol (symmno : ℝ)
       rotemp temperature,
     (vib_entropy_modes QH frequency_wn FREQ_CUTOFF temperature
       freq_scale_factor).sum,
     (calc_rrho_entropy frequency_wn temperature freq_scale_factor).sum)

/-- Assembly of the complete thermochemistry, source lines 681-727, for a
record whose guard at line 681 passed.  `sp` is `self.sp_energy` when the
attribute exists (lines 599-608): the enthalpy update at line 720 is
`self.enthalpy - self.scf_energy + self.sp_energy` inside
`try/except TypeError: pass`, modelled with `pyAdd`; on a `TypeError` the
enthalpy keeps its line-717 value. -/
def calc_bbe_complete (scf_energy zero_point_corr mult molecular_mass : ℝ)
    (symmno linear_mol : ℕ) (rotemp frequency_wn im_frequency_wn : List ℝ)
    (QH : String) (FREQ_CUTOFF temperature conc freq_scale_factor : ℝ)
    (solv : String) (sp : Option PyVal) : CompleteVals :=
  let Utrans := calc_translational_energy temperature
  let Strans := calc_translational_entropy molecular_mass conc temperature
    solv
  let Selec := calc_electronic_entropy mult
  let vib := vib_vals zero_point_corr symmno linear_mol rotemp frequency_wn
    QH FREQ_CUTOFF temperature freq_scale_factor
  let ZPE := vib.1
  let Urot := vib.2.1
  let Uvib := vib.2.2.1
  let Srot := vib.2.2.2.1
  let qh_Svib := vib.2.2.2.2.1
  let h_Svib := vib.2.2.2.2.2
  let enthalpy0 := scf_energy +
    (Utrans + Urot + Uvib + GAS_CONSTANT * temperature) / j_to_au
  let enthalpy :=
    match sp with
    | none => enthalpy0
    | some v =>
      match pyAdd (.float (enthalpy0 - scf_energy)) v with
      | some (.float x) => x
      | _ => enthalpy0
  let entropy := (Strans + Srot + h_Svib + Selec) / j_to_au
  let qh_entropy := (Strans + Srot + qh_Svib + Selec) / j_to_au
  { enthalpy := enthalpy
    zpe := ZPE / j_to_au
    entropy := entropy
    qh_entropy := qh_entropy
    gibbs_free_energy := enthalpy - temperature * entropy
    qh_gibbs_free_energy := enthalpy - temperature * qh_entropy
    im_freq := im_frequency_wn.filter
      (fun freq => freq < -1 * im_freq_cutoff) }

/-- Result of one `calc_bbe` evaluation.  Thermochemical fields are
`none` when the guard at source line 681 fails (missing zero-point
correction, or a rotational-temperature value that is `None`/empty and
hence falsy), in which case the object only carries the always-set
fields of lines 728-731. -/
structure BBEResult where
  scf_energy : ℝ
  sp_energy : Option PyVal
  enthalpy : Option ℝ
  zpe : Option ℝ
  entropy : Option ℝ
  qh_entropy : Option ℝ
  gibbs_free_energy : Option ℝ
  qh_gibbs_free_energy : Option ℝ
  im_freq : Option (List ℝ)
  frequency_wn : List ℝ
  linear_warning : List String

/-- A `BBEResult` with no thermochemical fields populated. -/
def bbe_incomplete (r : ParsedRecord) (sp : Option PyVal) : BBEResult :=
  { scf_energy := r.scf_energy
    sp_energy := sp
    enthalpy := none
    zpe := none
    entropy := none
    qh_entropy := none
    gibbs_free_energy := none
    qh_gibbs_free_energy := none
    im_freq := none
    frequency_wn := r.frequency_wn
    linear_warning := r.linear_warning }

/-- The `calc_bbe` evaluation, source lines 590-731, applied to an
already-parsed record.  The guard `hasattr(self, "zero_point_corr") and
rotemp` (line 681) passes when the zero-point correction was parsed and
`rotemp` is neither `None` nor an empty list (Python truthiness). -/
def calc_bbe (r : ParsedRecord) (QH : String)
    (FREQ_CUTOFF temperature conc freq_scale_factor : ℝ) (solv : String)
    (sp : Option PyVal) : BBEResult :=
  match r.zero_point_corr, r.rotemp with
  | some zpc, some rt =>
    match rt with
    | [] => bbe_incomplete r sp
    | _ =>
      let c := calc_bbe_complete r.scf_energy zpc r.mult r.molecular_mass
        r.symmno r.linear_mol rt r.frequency_wn r.im_frequency_wn QH
        FREQ_CUTOFF temperature conc freq_scale_factor solv sp
      { scf_energy := r.scf_energy
        sp_energy := sp
        enthalpy := some c.enthalpy
        zpe := some c.zpe
        entropy := some c.entropy
        qh_entropy := some c.qh_entropy
        gibbs_free_energy := some c.gibbs_free_energy
        qh_gibbs_free_energy := some c.qh_gibbs_free_energy
        im_freq := some c.im_freq
        frequency_wn := r.frequency_wn
        linear_warning := r.linear_warning }
  | _, _ => bbe_incomplete r sp

/-- The scalar fields of one conformer used by the aggregation passes of
`get_pes` (source lines 181-188 and 235-242). -/
structure CT where
  scf_energy : ℝ
  zpe : ℝ
  enthalpy : ℝ
  entropy : ℝ
  qh_entropy : ℝ
  gibbs_free_energy : ℝ
  qh_gibbs_free_energy : ℝ

/-- Value of `sys.float_info.max`, the start value of the minimum scan at
source line 244. -/
def FLOAT_INFO_MAX : ℝ := 1.7976931348623157e308

/-- First aggregation pass, source lines 244-246: running minimum of the
quasi-harmonic Gibbs energies, updated whenever `qh_gibbs <= g_min`. -/
def boltz_g_min (confs : List CT) : ℝ :=
  confs.foldl
    (fun m c => if c.qh_gibbs_free_energy ≤ m then c.qh_gibbs_free_energy
      else m)
    FLOAT_INFO_MAX

/-- The Boltzmann factor of one conformer, source lines 248-249. -/
def boltz_fac (gmin temperature : ℝ) (c : CT) : ℝ :=
  Real.exp (-(c.qh_gibbs_free_energy - gmin) * j_to_au / GAS_CONSTANT /
    temperature)

/-- Second aggregation pass, source lines 247-250: the sum of Boltzmann
factors. -/
def boltz_sum (confs : List CT) (temperature : ℝ) : ℝ :=
  (confs.map (boltz_fac (boltz_g_min confs) temperature)).sum

/-- The normalized Boltzmann weights of an ensemble. -/
def boltzWeights (confs : List CT) (temperature : ℝ) : List ℝ :=
  confs.map (fun c =>
    boltz_fac (boltz_g_min confs) temperature c / boltz_sum confs
      temperature)

/-- Third aggregation pass, source lines 251-261: the weight-normalized
sum of one scalar field over the ensemble. -/
def boltzAvg (confs : List CT) (temperature : ℝ) (f : CT → ℝ) : ℝ :=
  (confs.map (fun c =>
    f c * boltz_fac (boltz_g_min confs) temperature c / boltz_sum confs
      temperature)).sum

/-- Boltzmann-averaged conformer block, all fields weighted by the same
qh-Gibbs-derived factors, source lines 251-261. -/
def avgCT (confs : List CT) (temperature : ℝ) : CT :=
  { scf_energy := boltzAvg confs temperature (fun c => c.scf_energy)
    zpe := boltzAvg confs temperature (fun c => c.zpe)
    enthalpy := boltzAvg confs temperature (fun c => c.enthalpy)
    entropy := boltzAvg confs temperature (fun c => c.entropy)
    qh_entropy := boltzAvg confs temperature (fun c => c.qh_entropy)
    gibbs_free_energy := boltzAvg confs temperature
      (fun c => c.gibbs_free_energy)
    qh_gibbs_free_energy := boltzAvg confs temperature
      (fun c => c.qh_gibbs_free_energy) }

/-- Sum of two conformer blocks, the `+=` accumulation over the structures
of a multi-fragment point, source lines 235-242. -/
def addCT (a b : CT) : CT :=
  { scf_energy := a.scf_energy + b.scf_energy
    zpe := a.zpe + b.zpe
    enthalpy := a.enthalpy + b.enthalpy
    entropy := a.entropy + b.entropy
    qh_entropy := a.qh_entropy + b.qh_entropy
    gibbs_free_energy := a.gibbs_free_energy + b.gibbs_free_energy
    qh_gibbs_free_energy := a.qh_gibbs_free_energy +
      b.qh_gibbs_free_energy }

/-- The zero accumulator of source line 231. -/
def zeroCT : CT :=
  { scf_energy := 0, zpe := 0, enthalpy := 0, entropy := 0,
    qh_entropy := 0, gibbs_free_energy := 0, qh_gibbs_free_energy := 0 }

/-- A SPECIES entry: one file or a wildcard group of conformer files,
source lines 139-153. -/
inductive SpeciesFiles where
  | single (f : String)
  | group (fs : List String)

/-- The message of the `sys.exit` call at source lines 211 and 264. -/
def pes_exit_msg (file : String) : String :=
  "   Please edit " ++ file ++ " and try again\n"

/-- Absolute quantities of one PES point, source lines 230-264: the
structures of the point are resolved through the species map and the
thermochemistry data and their blocks summed (Boltzmann-averaged first
for conformer groups).  A name that is not a key of either map raises
`KeyError`, whose handler at lines 262-264 writes a warning and calls
`sys.exit`: modelled as `Except.error` with the exit message. -/
def point_abs (species : List (String × SpeciesFiles))
    (thermo_data : List (String × CT)) (temperature : ℝ) (file : String)
    (point_structures : List String) : Except String CT :=
  point_structures.foldlM
    (fun acc structure_name =>
      match List.lookup structure_name species with
      | none => Except.error (pes_exit_msg file)
      | some (.single f) =>
        match List.lookup f thermo_data with
        | none => Except.error (pes_exit_msg file)
        | some t => Except.ok (addCT acc t)
      | some (.group fs) => do
        let ts ← fs.mapM (fun f =>
          match List.lookup f thermo_data with
          | none => Except.error (pes_exit_msg file)
          | some t => Except.ok t)
        Except.ok (addCT acc (avgCT ts temperature)))
    zeroCT

/-- The PES assembly loop of `get_pes`, source lines 214-269: every point
of every pathway is resolved with `point_abs`; the first unresolvable
structure terminates the whole tabulation (the `sys.exit` at line 264). -/
def get_pes_points (species : List (String × SpeciesFiles))
    (thermo_data : List (String × CT)) (temperature : ℝ) (file : String)
    (paths : List (List (List String))) :
    Except String (List (List CT)) :=
  paths.mapM (fun path =>
    path.mapM (point_abs species thermo_data temperature file))

/-- Relative values of one point row against the zero-reference row,
source lines 1289 and 1301:
`relative = [species[x]-zero_vals[x] for x in range(len(zero_vals))]`. -/
def rel_vals (zero_vals point : List ℝ) : List ℝ :=
  (List.range zero_vals.length).map
    (fun x => point.getD x 0 - zero_vals.getD x 0)

/-- One Boltzmann term `exp(-relative*j_to_au/GAS_CONSTANT/T)`, source
lines 1290-1293 and 1313. -/
def boltz_term (temperature rel_x : ℝ) : ℝ :=
  Real.exp (-rel_x * j_to_au / GAS_CONSTANT / temperature)

/-- Per-path Boltzmann sum for the quantity at row index `idx`, source
lines 1286-1293 (`e_sum`, `h_sum`, `g_sum`, `qhg_sum` use indices 1, 3,
6, 7). -/
def path_sums (zero_vals : List ℝ) (temperature : ℝ)
    (points : List (List ℝ)) (idx : ℕ) : ℝ :=
  (points.map (fun p =>
    boltz_term temperature ((rel_vals zero_vals p).getD idx 0))).sum

/-- The selectivity percentages of one point of a path, source lines
1312-1315: the four tracked quantities are the rows at indices 1 (E),
3 (H), 6 (G) and 7 (qh-G), each normalized over the points of the same
path and scaled by 100. -/
def selectivity (zero_vals : List ℝ) (temperature : ℝ)
    (points : List (List ℝ)) (point : List ℝ) : List ℝ :=
  [boltz_term temperature ((rel_vals zero_vals point).getD 1 0) /
      path_sums zero_vals temperature points 1 * 100.0,
   boltz_term temperature ((rel_vals zero_vals point).getD 3 0) /
      path_sums zero_vals temperature points 3 * 100.0,
   boltz_term temperature ((rel_vals zero_vals point).getD 6 0) /
      path_sums zero_vals temperature points 6 * 100.0,
   boltz_term temperature ((rel_vals zero_vals point).getD 7 0) /
      path_sums zero_vals temperature points 7 * 100.0]

/-- The `sels` list accumulated over the points of one path, source line
1316. -/
def path_sels (zero_vals : List ℝ) (temperature : ℝ)
    (points : List (List ℝ)) : List (List ℝ) :=
  points.map (selectivity zero_vals temperature points)

/-- The enantiomeric-excess row of one path, source lines 1317-1318:
emitted only when `len(sels) == 2`, i.e. when the path has exactly two
points, as `[sels[0][x]-sels[1][x] for x in range(len(sels[0]))]`. -/
def path_ee (zero_vals : List ℝ) (temperature : ℝ)
    (points : List (List ℝ)) : Option (List ℝ) :=
  let sels := path_sels zero_vals temperature points
  if sels.length = 2 then
    some ((List.range (sels.getD 0 []).length).map
      (fun x => (sels.getD 0 []).getD x 0 - (sels.getD 1 []).getD x 0))
  else none

/-- All enantiomeric-excess rows of a run, one candidate per pathway,
source lines 1283-1320: rows exist only when the Boltzmann display is
the string `'ee'`, and only for pathways with exactly two points. -/
def ee_rows (boltz : String) (zero_vals : List ℝ)
    (paths : List (List (List ℝ))) (temperature : ℝ) : List (List ℝ) :=
  if boltz = "ee" then paths.filterMap (path_ee zero_vals temperature)
  else []

/-! Concrete inputs used to evaluate the model at specific data points. -/

/-- A monatomic parsed record (SCF energy 2.0 hartree, zero-point
correction present, default rotational temperatures, no frequencies). -/
def spc_record : ParsedRecord :=
  { scf_energy := 2.0
    zero_point_corr := some 0.0
    mult := 1.0
    molecular_mass := 10.0
    symmno := 1
    linear_mol := 0
    rotemp := some [0.0, 0.0, 0.0]
    frequency_wn := []
    im_frequency_wn := []
    linear_warning := [] }

/-- The value `calc_bbe` stores as `self.sp_energy` after reading a
single-point file whose energy is 1.0 hartree: the 5-tuple returned by
`sp_energy`. -/
def spc_tuple : PyVal :=
  sp_energy (.float 1.0) (.str "Gaussian")
    (.str "Gaussian 09, Revision D.01") (.str "gas phase")
    (.str "eth_TPSS")

/-- A record whose `Rotational temperatures` line was malformed so that
only the last two of the three values parse (the ambiguous
linear-molecule case of source lines 664-674). -/
def linear_warn_record : ParsedRecord :=
  { scf_energy := 0.0
    zero_point_corr := some 0.1
    mult := 1.0
    molecular_mass := 44.0
    symmno := 1
    linear_mol := 0
    rotemp := (parse_rotational_temperatures none (some 1.0) (some 2.0)).1
    frequency_wn := [500.0]
    im_frequency_wn := []
    linear_warning :=
      (parse_rotational_temperatures none (some 1.0) (some 2.0)).2 }

/-- A complete conformer block with all fields 1. -/
def ctA : CT :=
  { scf_energy := 1, zpe := 1, enthalpy := 1, entropy := 1,
    qh_entropy := 1, gibbs_free_energy := 1, qh_gibbs_free_energy := 1 }

/-- A species map with the single name `A`. -/
def speciesC2 : List (String × SpeciesFiles) :=
  [("A", .single "ethane.log")]

/-- Thermochemistry data for the single file of `speciesC2`. -/
def thermoC2 : List (String × CT) := [("ethane.log", ctA)]

/-- One pathway whose middle point references the undefined name `B`. -/
def paths_with_missing : List (List (List String)) :=
  [[["A"], ["B"], ["A"]]]

/-- One pathway whose single point references only defined names. -/
def paths_all_defined : List (List (List String)) := [[["A"]]]

/-- An 8-entry zero row of PES quantities. -/
def zero_row : List ℝ := [0, 0, 0, 0, 0, 0, 0, 0]

/-- Two pathways with one point each. -/
def two_paths_one_point : List (List (List ℝ)) := [[zero_row], [zero_row]]

/-- One pathway with two points. -/
def one_path_two_points : List (List (List ℝ)) :=
  [[zero_row, zero_row]]

/-- The first ee row produced for `one_path_two_points`. -/
def ee_row0 : List ℝ :=
  (ee_rows "ee" zero_row one_path_two_points 298.15).getD 0 []

/-- A conformer block satisfying the Gibbs/entropy identity at
T = 298.15. -/
def ctB : CT :=
  { scf_energy := 0, zpe := 0, enthalpy := 5, entropy := 2,
    qh_entropy := 3, gibbs_free_energy := 5 - 298.15 * 2,
    qh_gibbs_free_energy := 5 - 298.15 * 3 }

end

/-! Theorems -/

section Claims

open Real

/-- Helper: the truhlar branch with cutoff 0.0 appends the plain RRHO
value for every mode. -/
lemma vib_truhlar_cutoff_zero (freqs : List ℝ)
    (temperature freq_scale_factor : ℝ) :
    vib_entropy_modes "truhlar" freqs 0.0 temperature freq_scale_factor =
      calc_rrho_entropy freqs temperature freq_scale_factor := by
  unfold vib_entropy_modes calc_rrho_entropy
  have hfun : (fun freq : ℝ =>
      if ("truhlar" : String) = "grimme" then
        some (rrho1 freq temperature freq_scale_factor *
          damp1 freq 0.0 +
          (1 - damp1 freq 0.0) *
            freerot1 freq temperature freq_scale_factor)
      else if ("truhlar" : String) = "truhlar" then
        some (if (0.0 : ℝ) < 0.0 then
            (if (0.0 : ℝ) < freq then
              rrho1 freq temperature freq_scale_factor
            else rrho1 0.0 temperature 1.0)
          else rrho1 freq temperature freq_scale_factor)
      else none) =
      fun freq : ℝ => some (rrho1 freq temperature freq_scale_factor) := by
    funext freq
    rw [if_neg (by decide : ¬("truhlar" : String) = "grimme"), if_pos rfl,
      if_neg (lt_irrefl (0.0 : ℝ))]
  rw [hfun]
  induction freqs with
  | nil => rfl
  | cons f t ih => simp [List.filterMap_cons, ih]

/-- C5: with the truhlar quasi-harmonic method and frequency cutoff 0,
the total quasi-harmonic vibrational entropy equals the total pure RRHO
vibrational entropy for every list of frequencies, every positive
temperature and every positive scale factor. -/
theorem claim_C5 (freqs : List ℝ) (temperature freq_scale_factor : ℝ)
    (hT : 0 < temperature) (hs : 0 < freq_scale_factor) :
    (vib_entropy_modes "truhlar" freqs 0.0 temperature
      freq_scale_factor).sum =
      (calc_rrho_entropy freqs temperature freq_scale_factor).sum := by
  rw [vib_truhlar_cutoff_zero]

/-- Witness for C5 at the frequency list [50, 100], T = 298.15,
scale factor 1. -/
theorem claim_C5_witness :
    (0 : ℝ) < 298.15 ∧ (0 : ℝ) < 1.0 ∧
    (vib_entropy_modes "truhlar" [50.0, 100.0] 0.0 298.15 1.0).sum =
      (calc_rrho_entropy [50.0, 100.0] 298.15 1.0).sum :=
  ⟨by norm_num, by norm_num,
    claim_C5 [50.0, 100.0] 298.15 1.0 (by norm_num) (by norm_num)⟩

/-- C8: for a fixed positive cutoff, the per-mode damping value computed
by `calc_damp` is strictly increasing in the frequency over positive
frequencies, takes values only in the open interval (0, 1), and equals
1/2 at the cutoff frequency. -/
theorem claim_C8 (FREQ_CUTOFF nu nu1 nu2 : ℝ) (hc : 0 < FREQ_CUTOFF)
    (hnu : 0 < nu) (h1 : 0 < nu1) (h12 : nu1 < nu2) :
    damp1 nu1 FREQ_CUTOFF < damp1 nu2 FREQ_CUTOFF ∧
    (0 < damp1 nu FREQ_CUTOFF ∧ damp1 nu FREQ_CUTOFF < 1) ∧
    damp1 FREQ_CUTOFF FREQ_CUTOFF = 1 / 2 ∧
    calc_damp [nu] FREQ_CUTOFF = [damp1 nu FREQ_CUTOFF] := by
  have h2 : 0 < nu2 := h1.trans h12
  have ht : ∀ x : ℝ, 0 < x → 0 < (FREQ_CUTOFF / x) ^ alpha :=
    fun x hx => pow_pos (div_pos hc hx) _
  refine ⟨?_, ⟨?_, ?_⟩, ?_, rfl⟩
  · have hdiv : FREQ_CUTOFF / nu2 < FREQ_CUTOFF / nu1 :=
      div_lt_div_of_pos_left hc h1 h12
    have hp : (FREQ_CUTOFF / nu2) ^ alpha < (FREQ_CUTOFF / nu1) ^ alpha :=
      pow_lt_pow_left₀ hdiv (le_of_lt (div_pos hc h2))
        (by norm_num [alpha])
    have hb : (0 : ℝ) < 1 + (FREQ_CUTOFF / nu2) ^ alpha := by
      have := ht nu2 h2; linarith
    unfold damp1
    apply one_div_lt_one_div_of_lt hb
    linarith
  · unfold damp1
    have := ht nu hnu
    apply one_div_pos.mpr
    linarith
  · unfold damp1
    have := ht nu hnu
    rw [div_lt_one (by linarith)]
    linarith
  · unfold damp1
    rw [div_self (ne_of_gt hc)]
    norm_num [alpha]

/-- Witness for C8 at cutoff 100 and frequencies 50 < 60. -/
theorem claim_C8_witness :
    (0 : ℝ) < 100 ∧ (0 : ℝ) < 50 ∧ (50 : ℝ) < 60 ∧
    (damp1 50 100 < damp1 60 100 ∧
      (0 < damp1 50 100 ∧ damp1 50 100 < 1) ∧
      damp1 100 100 = 1 / 2 ∧
      calc_damp [50] 100 = [damp1 50 100]) :=
  ⟨by norm_num, by norm_num, by norm_num,
    claim_C8 100 50 50 60 (by norm_num) (by norm_num) (by norm_num)
      (by norm_num)⟩

/-- C9: any solvent name that is not one of the six table entries leaves
the selection index at 0, so `get_free_space` returns the `none` value
1000.0 without error. -/
theorem claim_C9 (solv : String) (h : solv ∉ solvent_list) :
    get_free_space solv = 1000.0 := by
  have hmem := h
  simp only [solvent_list, List.mem_cons, List.not_mem_nil, or_false,
    not_or] at hmem
  obtain ⟨h1, h2, h3, h4, h5, h6⟩ := hmem
  have h0 : nsolv_index solv = 0 := by
    rw [nsolv_index,
      show List.range solvent_list.length = [0, 1, 2, 3, 4, 5] from rfl]
    simp [solvent_list, h1, h2, h3, h4, h5, h6]
  unfold get_free_space
  rw [h0]
  norm_num

/-- Witness for C9 at the unrecognized solvent name `water`. -/
theorem claim_C9_witness :
    "water" ∉ solvent_list ∧ get_free_space "water" = 1000.0 :=
  ⟨by decide, claim_C9 "water" (by decide)⟩

/-- C1: the single-point correction of `calc_bbe` never replaces the
electronic energy, because `sp_energy` returns a 5-tuple (source line
379) and the float-plus-tuple addition at line 720 raises a `TypeError`
that the bare `except TypeError: pass` swallows.  First conjunct: for
every record and every single-point result shaped as `sp_energy`
returns, the enthalpy is identical to the one computed with no
single-point correction at all.  Second and third conjuncts evaluate a
monatomic record with SCF energy 2.0 and single-point energy 1.0: the
enthalpy is the SCF-based value, which differs from the value
`sp_energy + (Utrans + Urot + Uvib + R*T)/j_to_au` the specification
claims. -/
theorem claim_C1 :
    (∀ (scf spe zpc mult mass : ℝ) (symm lin : ℕ) (a b c : ℝ)
      (freqs imfreqs : List ℝ) (warn : List String) (QH : String)
      (cut temperature conc scale : ℝ) (solv : String)
      (prog ver solvm fl : String),
      (calc_bbe
        ⟨scf, some zpc, mult, mass, symm, lin, some [a, b, c], freqs,
          imfreqs, warn⟩ QH cut temperature conc scale solv
        (some (sp_energy (.float spe) (.str prog) (.str ver) (.str solvm)
          (.str fl)))).enthalpy =
      (calc_bbe
        ⟨scf, some zpc, mult, mass, symm, lin, some [a, b, c], freqs,
          imfreqs, warn⟩ QH cut temperature conc scale solv
        none).enthalpy) ∧
    (calc_bbe spc_record "grimme" 100.0 298.15 0.040876 1.0 "none"
      (some spc_tuple)).enthalpy =
      some (2.0 + 2.5 * GAS_CONSTANT * 298.15 / j_to_au) ∧
    (2.0 + 2.5 * GAS_CONSTANT * 298.15 / j_to_au : ℝ) ≠
      1.0 + 2.5 * GAS_CONSTANT * 298.15 / j_to_au := by
  refine ⟨?_, ?_, ?_⟩
  · intro scf spe zpc mult mass symm lin a b c freqs imfreqs warn QH cut
      temperature conc scale solv prog ver solvm fl
    rfl
  · have h : (calc_bbe spc_record "grimme" 100.0 298.15 0.040876 1.0
        "none" (some spc_tuple)).enthalpy =
        some (2.0 + (calc_translational_energy 298.15 + 0.0 + 0.0 +
          GAS_CONSTANT * 298.15) / j_to_au) := rfl
    rw [h]
    refine congrArg some ?_
    unfold calc_translational_energy
    ring
  · intro hcontra
    have h21 : (2.0 : ℝ) = 1.0 := by
      have := add_right_cancel hcontra
      exact this
    norm_num at h21

/-- C4 counterexample: for the record whose rotational-temperature line
parsed to only two values (the ambiguous linear-molecule case), the
evaluation sets the warning flag but still populates the enthalpy,
entropy and Gibbs fields -- the result is complete, not the
entropy-free result the claim describes. -/
theorem claim_C4_counterexample :
    (calc_bbe linear_warn_record "grimme" 100.0 298.15 0.040876 1.0
      "none" none).linear_warning = [linear_warning_msg] ∧
    (calc_bbe linear_warn_record "grimme" 100.0 298.15 0.040876 1.0
      "none" none).enthalpy.isSome = true ∧
    (calc_bbe linear_warn_record "grimme" 100.0 298.15 0.040876 1.0
      "none" none).entropy.isSome = true ∧
    (calc_bbe linear_warn_record "grimme" 100.0 298.15 0.040876 1.0
      "none" none).gibbs_free_energy.isSome = true :=
  ⟨rfl, rfl, rfl, rfl⟩

/-- C4 amended: a malformed rotational-temperature line from which only
2 of the 3 values parse makes `calc_bbe` set the linear-geometry-warning
flag and return a complete result (enthalpy, entropy and Gibbs energy
all populated) in which the two-temperature rotational entropy
contributes exactly zero; the run continues. -/
theorem claim_C4 (b c scf mult mass zpc : ℝ) (hz : zpc ≠ 0.0)
    (symm lin : ℕ) (freqs imfr : List ℝ) (QH : String)
    (cut temperature conc scale : ℝ) (solv : String) :
    (calc_bbe
      ⟨scf, some zpc, mult, mass, symm, lin,
        (parse_rotational_temperatures none (some b) (some c)).1, freqs,
        imfr,
        (parse_rotational_temperatures none (some b) (some c)).2⟩
      QH cut temperature conc scale solv none).linear_warning =
        [linear_warning_msg] ∧
    (calc_bbe
      ⟨scf, some zpc, mult, mass, symm, lin,
        (parse_rotational_temperatures none (some b) (some c)).1, freqs,
        imfr,
        (parse_rotational_temperatures none (some b) (some c)).2⟩
      QH cut temperature conc scale solv none).enthalpy.isSome = true ∧
    (calc_bbe
      ⟨scf, some zpc, mult, mass, symm, lin,
        (parse_rotational_temperatures none (some b) (some c)).1, freqs,
        imfr,
        (parse_rotational_temperatures none (some b) (some c)).2⟩
      QH cut temperature conc scale solv none).entropy.isSome = true ∧
    (calc_bbe
      ⟨scf, some zpc, mult, mass, symm, lin,
        (parse_rotational_temperatures none (some b) (some c)).1, freqs,
        imfr,
        (parse_rotational_temperatures none (some b) (some c)).2⟩
      QH cut temperature conc scale solv
      none).gibbs_free_energy.isSome = true ∧
    calc_rotational_entropy zpc lin (symm : ℝ) [b, c] temperature =
      0.0 := by
  refine ⟨rfl, rfl, rfl, rfl, ?_⟩
  have hcond : ¬([b, c] = ([0.0, 0.0, 0.0] : List ℝ) ∨ zpc = 0.0) := by
    rintro (hlist | hzero)
    · simp at hlist
    · exact hz hzero
  unfold calc_rotational_entropy
  rw [if_neg hcond]
  norm_num

/-- Witness for C4 at the concrete two-value parse [1.0, 2.0] with
zero-point correction 0.1. -/
theorem claim_C4_witness :
    (0.1 : ℝ) ≠ 0.0 ∧
    ((calc_bbe
      ⟨0.0, some 0.1, 1.0, 44.0, 1, 0,
        (parse_rotational_temperatures none (some 1.0) (some 2.0)).1,
        [500.0], [],
        (parse_rotational_temperatures none (some 1.0) (some 2.0)).2⟩
      "grimme" 100.0 298.15 0.040876 1.0 "none" none).linear_warning =
        [linear_warning_msg] ∧
    (calc_bbe
      ⟨0.0, some 0.1, 1.0, 44.0, 1, 0,
        (parse_rotational_temperatures none (some 1.0) (some 2.0)).1,
        [500.0], [],
        (parse_rotational_temperatures none (some 1.0) (some 2.0)).2⟩
      "grimme" 100.0 298.15 0.040876 1.0 "none"
      none).enthalpy.isSome = true ∧
    (calc_bbe
      ⟨0.0, some 0.1, 1.0, 44.0, 1, 0,
        (parse_rotational_temperatures none (some 1.0) (some 2.0)).1,
        [500.0], [],
        (parse_rotational_temperatures none (some 1.0) (some 2.0)).2⟩
      "grimme" 100.0 298.15 0.040876 1.0 "none"
      none).entropy.isSome = true ∧
    (calc_bbe
      ⟨0.0, some 0.1, 1.0, 44.0, 1, 0,
        (parse_rotational_temperatures none (some 1.0) (some 2.0)).1,
        [500.0], [],
        (parse_rotational_temperatures none (some 1.0) (some 2.0)).2⟩
      "grimme" 100.0 298.15 0.040876 1.0 "none"
      none).gibbs_free_energy.isSome = true ∧
    calc_rotational_entropy 0.1 0 ((1 : ℕ) : ℝ) [1.0, 2.0] 298.15 =
      0.0) :=
  ⟨by norm_num,
    claim_C4 1.0 2.0 0.0 1.0 44.0 0.1 (by norm_num) 1 0 [500.0] []
      "grimme" 100.0 298.15 0.040876 1.0 "none"⟩

/-- Helper: a successful `foldlM` over `Except` succeeded on every
element of the list for some intermediate accumulator. -/
lemma foldlM_ok_mem {α β : Type} (g : β → α → Except String β) :
    ∀ (l : List α) (b r : β), l.foldlM g b = Except.ok r →
      ∀ a ∈ l, ∃ b1 r1, g b1 a = Except.ok r1 := by
  intro l
  induction l with
  | nil => intro b r h a ha; exact absurd ha (List.not_mem_nil a)
  | cons x t ih =>
    intro b r h a ha
    rw [List.foldlM_cons] at h
    cases hx : g b x with
    | error e =>
      rw [hx] at h
      simp [Bind.bind, Except.bind] at h
    | ok b1 =>
      rw [hx] at h
      simp only [Bind.bind, Except.bind] at h
      rcases List.mem_cons.mp ha with rfl | hmem
      · exact ⟨b, b1, hx⟩
      · exact ih b1 r h a hmem

/-- Helper: a successful `mapM` over `Except` succeeded on every element
of the list. -/
lemma mapM_ok_mem {α β : Type} (f : α → Except String β) :
    ∀ (l : List α) (rs : List β), l.mapM f = Except.ok rs →
      ∀ a ∈ l, ∃ b, f a = Except.ok b := by
  intro l
  induction l with
  | nil => intro rs h a ha; exact absurd ha (List.not_mem_nil a)
  | cons x t ih =>
    intro rs h a ha
    rw [List.mapM_cons] at h
    cases hx : f x with
    | error e =>
      rw [hx] at h
      simp [Bind.bind, Except.bind] at h
    | ok b1 =>
      rw [hx] at h
      simp only [Bind.bind, Except.bind] at h
      cases ht : t.mapM f with
      | error e =>
        rw [ht] at h
        simp [Except.bind] at h
      | ok bs =>
        rw [ht] at h
        rcases List.mem_cons.mp ha with rfl | hmem
        · exact ⟨b1, hx⟩
        · exact ih bs ht a hmem

/-- Helper: a successfully assembled PES point resolved every structure
name of the point in the species map. -/
lemma point_abs_ok_lookup (species : List (String × SpeciesFiles))
    (thermo_data : List (String × CT)) (temperature : ℝ) (file : String)
    (structures : List String) (ct : CT)
    (h : point_abs species thermo_data temperature file structures =
      Except.ok ct) :
    ∀ nm ∈ structures, (List.lookup nm species).isSome = true := by
  intro nm hnm
  obtain ⟨b1, r1, hg⟩ :=
    foldlM_ok_mem _ structures zeroCT ct h nm hnm
  cases hl : List.lookup nm species with
  | none =>
    rw [hl] at hg
    simp at hg
  | some sf => simp

/-- C2 amended: a PES point referencing a structure name with no
available thermochemistry data is not skipped; the `KeyError` handler at
source lines 262-264 terminates the whole tabulation with `sys.exit`.
Contrapositively, whenever `get_pes_points` returns rows at all, every
structure name of every point of every pathway resolved in the species
map. -/
theorem claim_C2 (species : List (String × SpeciesFiles))
    (thermo_data : List (String × CT)) (temperature : ℝ) (file : String)
    (paths : List (List (List String))) (rows : List (List CT))
    (h : get_pes_points species thermo_data temperature file paths =
      Except.ok rows) :
    ∀ path ∈ paths, ∀ point ∈ path, ∀ nm ∈ point,
      (List.lookup nm species).isSome = true := by
  intro path hpath point hpoint nm hnm
  obtain ⟨prows, hp⟩ := mapM_ok_mem _ paths rows h path hpath
  obtain ⟨ct, hct⟩ := mapM_ok_mem _ path prows hp point hpoint
  exact point_abs_ok_lookup species thermo_data temperature file point ct
    hct nm hnm

/-- C2 counterexample: a pathway `[A, B, A]` whose middle point
references the undefined structure `B` does not yield rows for the
remaining points -- the whole assembly is the fatal exit message, so the
run terminates instead of skipping the point and continuing. -/
theorem claim_C2_counterexample :
    get_pes_points speciesC2 thermoC2 298.15 "graham.yaml"
      paths_with_missing =
      Except.error (pes_exit_msg "graham.yaml") := rfl

/-- Witness for C2: a run in which every name resolves returns rows, and
the theorem then certifies the lookup of `A`. -/
theorem claim_C2_witness :
    get_pes_points speciesC2 thermoC2 298.15 "graham.yaml"
        paths_all_defined = Except.ok [[addCT zeroCT ctA]] ∧
    (List.lookup "A" speciesC2).isSome = true :=
  ⟨rfl,
    claim_C2 speciesC2 thermoC2 298.15 "graham.yaml" paths_all_defined
      [[addCT zeroCT ctA]] rfl [["A"]] (by decide) ["A"] (by decide) "A"
      (by decide)⟩

/-- Helper: a mapped sum of pointwise quotients is the quotient of the
mapped sum. -/
lemma list_sum_map_div {α : Type} (l : List α) (f : α → ℝ) (d : ℝ) :
    (l.map fun a => f a / d).sum = (l.map f).sum / d := by
  induction l with
  | nil => simp
  | cons x t ih => simp [ih, add_div]

/-- Helper: a mapped sum of pointwise differences is the difference of
the mapped sums. -/
lemma list_sum_map_sub {α : Type} (l : List α) (f g : α → ℝ) :
    (l.map fun a => f a - g a).sum = (l.map f).sum - (l.map g).sum := by
  induction l with
  | nil => simp
  | cons x t ih =>
    simp only [List.map_cons, List.sum_cons, ih]
    ring

/-- Helper: a common factor moves out of a mapped sum. -/
lemma list_sum_map_mul_left {α : Type} (l : List α) (f : α → ℝ)
    (c : ℝ) :
    (l.map fun a => c * f a).sum = c * (l.map f).sum := by
  induction l with
  | nil => simp
  | cons x t ih =>
    simp only [List.map_cons, List.sum_cons, ih]
    ring

/-- Helper: a mapped list sum as a `Finset.range` sum over positional
access. -/
lemma list_map_sum_eq_range {α : Type} (l : List α) (f : α → ℝ)
    (d : α) :
    (l.map f).sum = ∑ i ∈ Finset.range l.length, f (l.getD i d) := by
  induction l with
  | nil => simp
  | cons x t ih =>
    rw [List.map_cons, List.sum_cons, List.length_cons,
      Finset.sum_range_succ']
    simp only [List.getD_cons_succ, List.getD_cons_zero]
    rw [ih]
    ring

/-- C7: over any non-empty conformer ensemble the normalized Boltzmann
weights of the aggregation pass sum to 1, and the weighted-average
quasi-harmonic Gibbs energy is at most the unweighted arithmetic mean of
the conformer quasi-harmonic Gibbs energies. -/
theorem claim_C7 (confs : List CT) (temperature : ℝ) (hne : confs ≠ [])
    (hT : 0 < temperature) :
    (boltzWeights confs temperature).sum = 1 ∧
    boltzAvg confs temperature (fun c => c.qh_gibbs_free_energy) ≤
      (confs.map (fun c => c.qh_gibbs_free_energy)).sum /
        (confs.length : ℝ) := by
  have hfac : ∀ c : CT,
      0 < boltz_fac (boltz_g_min confs) temperature c :=
    fun c => Real.exp_pos _
  have hS : 0 < boltz_sum confs temperature := by
    apply List.sum_pos
    · intro x hx
      obtain ⟨c, _, rfl⟩ := List.mem_map.mp hx
      exact hfac c
    · simpa using hne
  have hK : 0 < j_to_au / GAS_CONSTANT / temperature := by
    have h1 : (0 : ℝ) < j_to_au := by unfold j_to_au; norm_num
    have h2 : (0 : ℝ) < GAS_CONSTANT := by unfold GAS_CONSTANT; norm_num
    positivity
  constructor
  · unfold boltzWeights
    rw [list_sum_map_div]
    exact div_self (ne_of_gt hS)
  · have hn0 : 0 < confs.length := List.length_pos.mpr hne
    have hn0R : (0 : ℝ) < (confs.length : ℝ) := by exact_mod_cast hn0
    have hanti : AntivaryOn
        (fun i => boltz_fac (boltz_g_min confs) temperature
          (confs.getD i zeroCT))
        (fun i => (confs.getD i zeroCT).qh_gibbs_free_energy)
        ((Finset.range confs.length : Finset ℕ) : Set ℕ) := by
      intro i hi j hj hij
      unfold boltz_fac
      apply Real.exp_le_exp.mpr
      have h1 : ∀ x : ℝ,
          -(x - boltz_g_min confs) * j_to_au / GAS_CONSTANT /
            temperature =
          (boltz_g_min confs - x) *
            (j_to_au / GAS_CONSTANT / temperature) := by
        intro x; ring
      rw [h1, h1]
      apply mul_le_mul_of_nonneg_right _ (le_of_lt hK)
      linarith
    have cheb := hanti.card_mul_sum_le_sum_mul_sum
    rw [Finset.card_range] at cheb
    have hb1 : boltzAvg confs temperature
        (fun c => c.qh_gibbs_free_energy) =
        (∑ i ∈ Finset.range confs.length,
          (confs.getD i zeroCT).qh_gibbs_free_energy *
            boltz_fac (boltz_g_min confs) temperature
              (confs.getD i zeroCT)) / boltz_sum confs temperature := by
      unfold boltzAvg
      rw [list_sum_map_div,
        list_map_sum_eq_range confs
          (fun c => c.qh_gibbs_free_energy *
            boltz_fac (boltz_g_min confs) temperature c) zeroCT]
    have hb2 : (confs.map (fun c => c.qh_gibbs_free_energy)).sum =
        ∑ i ∈ Finset.range confs.length,
          (confs.getD i zeroCT).qh_gibbs_free_energy :=
      list_map_sum_eq_range confs (fun c => c.qh_gibbs_free_energy)
        zeroCT
    have hb3 : boltz_sum confs temperature =
        ∑ i ∈ Finset.range confs.length,
          boltz_fac (boltz_g_min confs) temperature
            (confs.getD i zeroCT) :=
      list_map_sum_eq_range confs
        (boltz_fac (boltz_g_min confs) temperature) zeroCT
    rw [hb1, hb2, div_le_div_iff₀ hS hn0R]
    have hcomm : (∑ i ∈ Finset.range confs.length,
        (confs.getD i zeroCT).qh_gibbs_free_energy *
          boltz_fac (boltz_g_min confs) temperature
            (confs.getD i zeroCT)) =
        ∑ i ∈ Finset.range confs.length,
          boltz_fac (boltz_g_min confs) temperature (confs.getD i zeroCT)
            * (confs.getD i zeroCT).qh_gibbs_free_energy :=
      Finset.sum_congr rfl (fun i _ => mul_comm _ _)
    rw [hcomm]
    rw [← hb3] at cheb
    linarith [cheb]

/-- Witness for C7 on the singleton ensemble `[ctA]` at T = 298.15. -/
theorem claim_C7_witness :
    ([ctA] : List CT) ≠ [] ∧ (0 : ℝ) < 298.15 ∧
    ((boltzWeights [ctA] 298.15).sum = 1 ∧
      boltzAvg [ctA] 298.15 (fun c => c.qh_gibbs_free_energy) ≤
        ([ctA].map (fun c => c.qh_gibbs_free_energy)).sum /
          (([ctA] : List CT).length : ℝ)) :=
  ⟨by simp, by norm_num, claim_C7 [ctA] 298.15 (by simp) (by norm_num)⟩

/-- C10: every complete result of the thermochemistry evaluation
satisfies `gibbs - qh_gibbs = T * (qh_entropy - entropy)`, and the
identity is preserved by the Boltzmann ensemble averaging of `get_pes`,
which weights all fields with the same factors. -/
theorem claim_C10 :
    (∀ (scf zpc mult mass : ℝ) (symm lin : ℕ) (rt fw imf : List ℝ)
      (QH : String) (cut temperature conc scale : ℝ) (solv : String)
      (sp : Option PyVal),
      (calc_bbe_complete scf zpc mult mass symm lin rt fw imf QH cut
        temperature conc scale solv sp).gibbs_free_energy -
        (calc_bbe_complete scf zpc mult mass symm lin rt fw imf QH cut
          temperature conc scale solv sp).qh_gibbs_free_energy =
        temperature *
          ((calc_bbe_complete scf zpc mult mass symm lin rt fw imf QH cut
            temperature conc scale solv sp).qh_entropy -
            (calc_bbe_complete scf zpc mult mass symm lin rt fw imf QH
              cut temperature conc scale solv sp).entropy)) ∧
    (∀ (confs : List CT) (temperature : ℝ),
      (∀ c ∈ confs, c.gibbs_free_energy - c.qh_gibbs_free_energy =
        temperature * (c.qh_entropy - c.entropy)) →
      boltzAvg confs temperature (fun c => c.gibbs_free_energy) -
        boltzAvg confs temperature (fun c => c.qh_gibbs_free_energy) =
        temperature *
          (boltzAvg confs temperature (fun c => c.qh_entropy) -
            boltzAvg confs temperature (fun c => c.entropy))) := by
  constructor
  · intro scf zpc mult mass symm lin rt fw imf QH cut temperature conc
      scale solv sp
    simp only [calc_bbe_complete]
    ring
  · intro confs temperature h
    unfold boltzAvg
    rw [← list_sum_map_sub, ← list_sum_map_sub]
    have hmap : confs.map (fun c =>
        c.gibbs_free_energy *
          boltz_fac (boltz_g_min confs) temperature c /
          boltz_sum confs temperature -
        c.qh_gibbs_free_energy *
          boltz_fac (boltz_g_min confs) temperature c /
          boltz_sum confs temperature) =
        confs.map (fun c => temperature *
          (c.qh_entropy * boltz_fac (boltz_g_min confs) temperature c /
            boltz_sum confs temperature -
          c.entropy * boltz_fac (boltz_g_min confs) temperature c /
            boltz_sum confs temperature)) := by
      apply List.map_congr_left
      intro c hc
      have hid := h c hc
      have e1 : c.gibbs_free_energy *
          boltz_fac (boltz_g_min confs) temperature c /
          boltz_sum confs temperature -
          c.qh_gibbs_free_energy *
            boltz_fac (boltz_g_min confs) temperature c /
            boltz_sum confs temperature =
          (c.gibbs_free_energy - c.qh_gibbs_free_energy) *
            boltz_fac (boltz_g_min confs) temperature c /
            boltz_sum confs temperature := by ring
      rw [e1, hid]
      ring
    rw [hmap, list_sum_map_mul_left, list_sum_map_sub]

/-- Witness for C10 on the singleton ensemble `[ctB]` at T = 298.15. -/
theorem claim_C10_witness :
    (∀ c ∈ [ctB], c.gibbs_free_energy - c.qh_gibbs_free_energy =
      298.15 * (c.qh_entropy - c.entropy)) ∧
    (boltzAvg [ctB] 298.15 (fun c => c.gibbs_free_energy) -
      boltzAvg [ctB] 298.15 (fun c => c.qh_gibbs_free_energy) =
      298.15 * (boltzAvg [ctB] 298.15 (fun c => c.qh_entropy) -
        boltzAvg [ctB] 298.15 (fun c => c.entropy))) := by
  have h : ∀ c ∈ [ctB], c.gibbs_free_energy - c.qh_gibbs_free_energy =
      298.15 * (c.qh_entropy - c.entropy) := by
    intro c hc
    rw [List.mem_singleton] at hc
    subst hc
    show (5 - 298.15 * 2 : ℝ) - (5 - 298.15 * 3) = 298.15 * (3 - 2)
    norm_num
  exact ⟨h, claim_C10.2 [ctB] 298.15 h⟩

/-- Helper: the difference of two percentages normalized over their own
sum lies strictly inside (-100, 100). -/
lemma sel_diff_bound (t0 t1 : ℝ) (h0 : 0 < t0) (h1 : 0 < t1) :
    -100 ≤ t0 / (t0 + t1) * 100.0 - t1 / (t0 + t1) * 100.0 ∧
    t0 / (t0 + t1) * 100.0 - t1 / (t0 + t1) * 100.0 ≤ 100 := by
  have hs : 0 < t0 + t1 := by linarith
  have ha : t0 / (t0 + t1) < 1 := (div_lt_one hs).mpr (by linarith)
  have hb : 0 < t0 / (t0 + t1) := by positivity
  have hc : t1 / (t0 + t1) < 1 := (div_lt_one hs).mpr (by linarith)
  have hd : 0 < t1 / (t0 + t1) := by positivity
  constructor <;> nlinarith

/-- Helper: one ee entry of a two-point path is bounded by plus or minus
100. -/
lemma ee_entry_bound (zero_vals : List ℝ) (temperature : ℝ)
    (p0 p1 : List ℝ) (idx : ℕ) :
    -100 ≤ boltz_term temperature ((rel_vals zero_vals p0).getD idx 0) /
        path_sums zero_vals temperature [p0, p1] idx * 100.0 -
      boltz_term temperature ((rel_vals zero_vals p1).getD idx 0) /
        path_sums zero_vals temperature [p0, p1] idx * 100.0 ∧
    boltz_term temperature ((rel_vals zero_vals p0).getD idx 0) /
        path_sums zero_vals temperature [p0, p1] idx * 100.0 -
      boltz_term temperature ((rel_vals zero_vals p1).getD idx 0) /
        path_sums zero_vals temperature [p0, p1] idx * 100.0 ≤ 100 := by
  have hS : path_sums zero_vals temperature [p0, p1] idx =
      boltz_term temperature ((rel_vals zero_vals p0).getD idx 0) +
      boltz_term temperature ((rel_vals zero_vals p1).getD idx 0) := by
    simp [path_sums]
  rw [hS]
  exact sel_diff_bound _ _ (Real.exp_pos _) (Real.exp_pos _)

/-- C3 amended: the ee rows are produced per pathway, for each pathway
having exactly two points (not for a pair of pathways); each row is the
pointwise difference of the selectivity percentages of the two points of
that pathway, and every entry lies in [-100, 100]. -/
theorem claim_C3 (zero_vals : List ℝ) (paths : List (List (List ℝ)))
    (temperature : ℝ) (row : List ℝ)
    (hrow : row ∈ ee_rows "ee" zero_vals paths temperature) :
    (∃ points ∈ paths, points.length = 2 ∧
      path_ee zero_vals temperature points = some row) ∧
    ∀ x ∈ row, -100 ≤ x ∧ x ≤ 100 := by
  unfold ee_rows at hrow
  rw [if_pos rfl] at hrow
  obtain ⟨points, hpts, hee⟩ := List.mem_filterMap.mp hrow
  have hlen2 : (path_sels zero_vals temperature points).length = 2 := by
    by_contra hc
    unfold path_ee at hee
    rw [if_neg hc] at hee
    exact Option.noConfusion hee
  have hplen : points.length = 2 := by
    unfold path_sels at hlen2
    simpa using hlen2
  obtain ⟨p0, p1, rfl⟩ := List.length_eq_two.mp hplen
  refine ⟨⟨[p0, p1], hpts, by simp, hee⟩, ?_⟩
  unfold path_ee at hee
  rw [if_pos hlen2] at hee
  have hX := Option.some_inj.mp hee
  subst hX
  intro x hx
  obtain ⟨i, hi, rfl⟩ := List.mem_map.mp hx
  rw [List.mem_range] at hi
  have hlen4 : ((path_sels zero_vals temperature [p0, p1]).getD 0
      []).length = 4 := rfl
  rw [hlen4] at hi
  have e0 : (path_sels zero_vals temperature [p0, p1]).getD 0 [] =
      selectivity zero_vals temperature [p0, p1] p0 := rfl
  have e1 : (path_sels zero_vals temperature [p0, p1]).getD 1 [] =
      selectivity zero_vals temperature [p0, p1] p1 := rfl
  rw [e0, e1]
  interval_cases i
  · exact ee_entry_bound zero_vals temperature p0 p1 1
  · exact ee_entry_bound zero_vals temperature p0 p1 3
  · exact ee_entry_bound zero_vals temperature p0 p1 6
  · exact ee_entry_bound zero_vals temperature p0 p1 7

/-- C3 counterexample: with Boltzmann display `'ee'` and exactly two
pathways, each consisting of a single point, no ee row is produced at
all -- the code checks `len(sels) == 2` per pathway (two points), not
that two pathways are being compared. -/
theorem claim_C3_counterexample :
    two_paths_one_point.length = 2 ∧
    ee_rows "ee" zero_row two_paths_one_point 298.15 = [] :=
  ⟨rfl, rfl⟩

/-- Witness for C3 on a pathway with two points at the zero reference. -/
theorem claim_C3_witness :
    ee_row0 ∈ ee_rows "ee" zero_row one_path_two_points 298.15 ∧
    ∀ x ∈ ee_row0, -100 ≤ x ∧ x ≤ 100 := by
  have hmem : ee_row0 ∈ ee_rows "ee" zero_row one_path_two_points
      298.15 := by
    have e : ee_rows "ee" zero_row one_path_two_points 298.15 =
        [ee_row0] := rfl
    rw [e]
    exact List.mem_singleton.mpr rfl
  exact ⟨hmem,
    (claim_C3 zero_row one_path_two_points 298.15 ee_row0 hmem).2⟩

/-- Helper: log of a positive number is at most the number divided by a
lower bound of e. -/
lemma log_le_div_e (q : ℝ) (hq : 0 < q) : Real.log q ≤ q / 2.7182818283 := by
  have he : (2.7182818283 : ℝ) < Real.exp 1 := Real.exp_one_gt_d9
  have h2 : Real.log (q / Real.exp 1) ≤ q / Real.exp 1 - 1 :=
    Real.log_le_sub_one_of_pos (by positivity)
  rw [Real.log_div (ne_of_gt hq) (ne_of_gt (Real.exp_pos 1)),
    Real.log_exp] at h2
  have h3 : q / Real.exp 1 ≤ q / 2.7182818283 :=
    div_le_div_of_nonneg_left (le_of_lt hq) (by norm_num) (le_of_lt he)
  linarith

/-- Helper: lower bound for the per-mode RRHO core at 0 < x < 1. -/
lemma rrho_core_lb (x : ℝ) (h0 : 0 < x) (h1 : x < 1) :
    (1 - x) + Real.log x⁻¹ ≤
      x / (Real.exp x - 1) - Real.log (1 - Real.exp (-x)) := by
  have hex : x + 1 ≤ Real.exp x := Real.add_one_le_exp x
  have hexneg : -x + 1 ≤ Real.exp (-x) := Real.add_one_le_exp (-x)
  have hexm1 : 0 < Real.exp x - 1 := by linarith
  have hlt1 : Real.exp (-x) < 1 := Real.exp_lt_one_iff.mpr (by linarith)
  have h1me : 0 < 1 - Real.exp (-x) := by linarith
  have hA : 1 - x ≤ x / (Real.exp x - 1) := by
    rw [le_div_iff₀ hexm1]
    have hprod : Real.exp (-x) * Real.exp x = 1 := by
      rw [← Real.exp_add]; norm_num
    nlinarith [Real.exp_pos x]
  have hB : Real.log x⁻¹ ≤ -Real.log (1 - Real.exp (-x)) := by
    rw [Real.log_inv]
    have hle : 1 - Real.exp (-x) ≤ x := by linarith
    have := Real.log_le_log h1me hle
    linarith
  linarith

/-- Helper: lower bound for the log of an inverse in terms of log 2. -/
lemma log_inv_lb (x : ℝ) (h0 : 0 < x) :
    2 * Real.log 2 + (1 - 4 * x) ≤ Real.log x⁻¹ := by
  have hinv : x⁻¹ = 4 * (4 * x)⁻¹ := by field_simp
  rw [hinv, Real.log_mul (by norm_num) (by positivity)]
  have h4 : Real.log 4 = 2 * Real.log 2 := by
    rw [show (4 : ℝ) = 2 ^ 2 by norm_num, Real.log_pow]
    push_cast; ring
  have hlog : 1 - 4 * x ≤ Real.log (4 * x)⁻¹ := by
    have h5 := Real.one_sub_inv_le_log_of_pos
      (x := (4 * x)⁻¹) (by positivity)
    rwa [inv_inv] at h5
  linarith

/-- Helper: cubic upper bound for exp(-x) on [0, 1]. -/
lemma exp_neg_cubic_ub (x : ℝ) (h0 : 0 ≤ x) (h1 : x ≤ 1) :
    Real.exp (-x) ≤ 1 - x + x ^ 2 / 2 + 2 / 9 * x ^ 3 := by
  have habs : |(-x)| ≤ 1 := by rw [abs_neg, abs_of_nonneg h0]; exact h1
  have hb := Real.exp_bound habs (n := 3) (by norm_num)
  have hsum : ∑ m ∈ Finset.range 3, (-x) ^ m / (m.factorial : ℝ) =
      1 - x + x ^ 2 / 2 := by
    rw [Finset.sum_range_succ, Finset.sum_range_succ,
      Finset.sum_range_succ, Finset.sum_range_zero]
    norm_num [Nat.factorial]
    ring
  rw [hsum] at hb
  norm_num [abs_neg, abs_of_nonneg h0, Nat.factorial] at hb
  have := (abs_sub_le_iff.mp hb).1
  linarith

/-- Helper: upper bound for the per-mode RRHO core at 0 < x <= 1. -/
lemma rrho_core_ub (x : ℝ) (h0 : 0 < x) (h1 : x ≤ 1)
    (hp : 0 < x - x ^ 2 / 2 - 2 / 9 * x ^ 3) :
    x / (Real.exp x - 1) - Real.log (1 - Real.exp (-x)) ≤
      1 + Real.log (x - x ^ 2 / 2 - 2 / 9 * x ^ 3)⁻¹ := by
  have hex : x + 1 ≤ Real.exp x := Real.add_one_le_exp x
  have hexm1 : 0 < Real.exp x - 1 := by linarith
  have hA : x / (Real.exp x - 1) ≤ 1 := by
    rw [div_le_one hexm1]; linarith
  have hecub := exp_neg_cubic_ub x h0.le h1
  have hge : x - x ^ 2 / 2 - 2 / 9 * x ^ 3 ≤ 1 - Real.exp (-x) := by
    linarith
  have h1me : 0 < 1 - Real.exp (-x) := lt_of_lt_of_le hp hge
  have hB : -Real.log (1 - Real.exp (-x)) ≤
      Real.log (x - x ^ 2 / 2 - 2 / 9 * x ^ 3)⁻¹ := by
    rw [Real.log_inv]
    have := Real.log_le_log hp hge
    linarith
  linarith

/-- Helper: the per-mode RRHO entropy as the gas constant times its
core. -/
lemma rrho1_eq (freq temperature s : ℝ) :
    rrho1 freq temperature s =
      GAS_CONSTANT *
        ((PLANCK_CONSTANT * freq * SPEED_OF_LIGHT * s /
            BOLTZMANN_CONSTANT / temperature) /
          (Real.exp (PLANCK_CONSTANT * freq * SPEED_OF_LIGHT * s /
            BOLTZMANN_CONSTANT / temperature) - 1) -
        Real.log (1 - Real.exp (-(PLANCK_CONSTANT * freq *
          SPEED_OF_LIGHT * s / BOLTZMANN_CONSTANT / temperature)))) := by
  simp only [rrho1]
  ring

/-- Helper: the gas constant is positive. -/
lemma gas_constant_pos : (0 : ℝ) < GAS_CONSTANT := by
  unfold GAS_CONSTANT; norm_num

/-- Helper: numeric lower bound for the RRHO entropy of the 50 wavenumber
mode at 298.15 K with scale factor 1. -/
lemma rrho1_50_lb :
    GAS_CONSTANT * (3.3862943606 - 5 * (PLANCK_CONSTANT * 50.0 *
      SPEED_OF_LIGHT * 1.0 / BOLTZMANN_CONSTANT / 298.15)) <
      rrho1 50.0 298.15 1.0 := by
  rw [rrho1_eq]
  set x := PLANCK_CONSTANT * 50.0 * SPEED_OF_LIGHT * 1.0 /
    BOLTZMANN_CONSTANT / 298.15 with hx
  have h0 : 0 < x := by
    rw [hx]; unfold PLANCK_CONSTANT SPEED_OF_LIGHT BOLTZMANN_CONSTANT
    norm_num
  have h1 : x < 1 := by
    rw [hx]; unfold PLANCK_CONSTANT SPEED_OF_LIGHT BOLTZMANN_CONSTANT
    norm_num
  have hcore := rrho_core_lb x h0 h1
  have hloginv := log_inv_lb x h0
  have hlog2 : (0.6931471803 : ℝ) < Real.log 2 := Real.log_two_gt_d9
  have hfinal : 3.3862943606 - 5 * x <
      x / (Real.exp x - 1) - Real.log (1 - Real.exp (-x)) := by
    linarith
  exact mul_lt_mul_of_pos_left hfinal gas_constant_pos

/-- Helper: numeric upper bound for the RRHO entropy of the 100
wavenumber mode at 298.15 K with scale factor 1: it is strictly below
the lower bound of the 50 wavenumber mode. -/
lemma rrho1_100_ub :
    rrho1 100.0 298.15 1.0 <
      GAS_CONSTANT * (3.3862943606 - 5 * (PLANCK_CONSTANT * 50.0 *
        SPEED_OF_LIGHT * 1.0 / BOLTZMANN_CONSTANT / 298.15)) := by
  rw [rrho1_eq]
  set y := PLANCK_CONSTANT * 100.0 * SPEED_OF_LIGHT * 1.0 /
    BOLTZMANN_CONSTANT / 298.15 with hy
  set x := PLANCK_CONSTANT * 50.0 * SPEED_OF_LIGHT * 1.0 /
    BOLTZMANN_CONSTANT / 298.15 with hx
  have h0 : 0 < y := by
    rw [hy]; unfold PLANCK_CONSTANT SPEED_OF_LIGHT BOLTZMANN_CONSTANT
    norm_num
  have h1 : y ≤ 1 := by
    rw [hy]; unfold PLANCK_CONSTANT SPEED_OF_LIGHT BOLTZMANN_CONSTANT
    norm_num
  have hp : 0 < y - y ^ 2 / 2 - 2 / 9 * y ^ 3 := by
    rw [hy]; unfold PLANCK_CONSTANT SPEED_OF_LIGHT BOLTZMANN_CONSTANT
    norm_num
  have hcore := rrho_core_ub y h0 h1 hp
  have hlog := log_le_div_e (y - y ^ 2 / 2 - 2 / 9 * y ^ 3)⁻¹
    (by positivity)
  have hnum : 1 + (y - y ^ 2 / 2 - 2 / 9 * y ^ 3)⁻¹ / 2.7182818283 <
      3.3862943606 - 5 * x := by
    rw [hy, hx]; unfold PLANCK_CONSTANT SPEED_OF_LIGHT BOLTZMANN_CONSTANT
    norm_num
  have hfinal : y / (Real.exp y - 1) - Real.log (1 - Real.exp (-y)) <
      3.3862943606 - 5 * x := by
    linarith
  exact mul_lt_mul_of_pos_left hfinal gas_constant_pos

/-- Helper: the Planck constant is positive. -/
lemma planck_pos : (0 : ℝ) < PLANCK_CONSTANT := by
  unfold PLANCK_CONSTANT; norm_num

/-- Helper: the Boltzmann constant is positive. -/
lemma boltzmann_pos : (0 : ℝ) < BOLTZMANN_CONSTANT := by
  unfold BOLTZMANN_CONSTANT; norm_num

/-- Helper: the speed of light is positive. -/
lemma speed_pos : (0 : ℝ) < SPEED_OF_LIGHT := by
  unfold SPEED_OF_LIGHT; norm_num

/-- Helper: the Grimme average moment of inertia is positive. -/
lemma bav_pos : (0 : ℝ) < Bav := by
  unfold Bav; norm_num

/-- Helper: exp 3 is at least 20.08. -/
lemma exp_three_lb : (20.08 : ℝ) ≤ Real.exp 3 := by
  have h1 : (2.7182818283 : ℝ) ^ (3 : ℕ) ≤ Real.exp 1 ^ (3 : ℕ) :=
    pow_le_pow_left₀ (by norm_num) Real.exp_one_gt_d9.le 3
  have h2 : Real.exp 1 ^ (3 : ℕ) = Real.exp 3 := by
    rw [← Real.exp_nat_mul]; norm_num
  have h3 : (20.08 : ℝ) ≤ 2.7182818283 ^ (3 : ℕ) := by norm_num
  linarith

/-- Helper: numeric upper bound for the free-rotor entropy of the 50
wavenumber mode at 298.15 K with scale factor 1. -/
lemma freerot1_50_ub : freerot1 50.0 298.15 1.0 < 2 * GAS_CONSTANT := by
  have hh := planck_pos
  have hk := boltzmann_pos
  have hc := speed_pos
  have hB := bav_pos
  have hpi := Real.pi_pos
  have hpi0 : π ≠ 0 := ne_of_gt hpi
  have hh0 : PLANCK_CONSTANT ≠ 0 := ne_of_gt hh
  have hc0 : SPEED_OF_LIGHT ≠ 0 := ne_of_gt hc
  simp only [freerot1]
  set MU := PLANCK_CONSTANT /
    (8 * π ^ (2 : ℕ) * 50.0 * SPEED_OF_LIGHT * 1.0) with hMU
  have hMU0 : 0 < MU := by rw [hMU]; positivity
  set MUP := MU * Bav / (MU + Bav) with hMUP
  have hMUP0 : 0 < MUP := by rw [hMUP]; positivity
  have hMUPle : MUP ≤ MU := by
    rw [hMUP, div_le_iff₀ (by positivity)]
    nlinarith
  set F := 8 * π ^ (3 : ℕ) * MUP * BOLTZMANN_CONSTANT * 298.15 /
    PLANCK_CONSTANT ^ (2 : ℕ) with hF
  have hF0 : 0 < F := by rw [hF]; positivity
  have hFle : F ≤ 8 * π ^ (3 : ℕ) * MU * BOLTZMANN_CONSTANT * 298.15 /
      PLANCK_CONSTANT ^ (2 : ℕ) := by
    rw [hF]
    gcongr
  have heq : 8 * π ^ (3 : ℕ) * MU * BOLTZMANN_CONSTANT * 298.15 /
      PLANCK_CONSTANT ^ (2 : ℕ) =
      π * (BOLTZMANN_CONSTANT * 298.15 /
        (PLANCK_CONSTANT * 50.0 * SPEED_OF_LIGHT)) := by
    rw [hMU]
    field_simp
    ring
  have hq0 : 0 < BOLTZMANN_CONSTANT * 298.15 /
      (PLANCK_CONSTANT * 50.0 * SPEED_OF_LIGHT) := by positivity
  have hlt : π * (BOLTZMANN_CONSTANT * 298.15 /
      (PLANCK_CONSTANT * 50.0 * SPEED_OF_LIGHT)) <
      3.15 * (BOLTZMANN_CONSTANT * 298.15 /
        (PLANCK_CONSTANT * 50.0 * SPEED_OF_LIGHT)) :=
    mul_lt_mul_of_pos_right Real.pi_lt_d2 hq0
  have hnum : 3.15 * (BOLTZMANN_CONSTANT * 298.15 /
      (PLANCK_CONSTANT * 50.0 * SPEED_OF_LIGHT)) ≤ 20.08 := by
    unfold BOLTZMANN_CONSTANT PLANCK_CONSTANT SPEED_OF_LIGHT
    norm_num
  have hFexp : F < Real.exp 3 := by
    rw [heq] at hFle
    linarith [exp_three_lb]
  have hlogF : Real.log F < 3 := (Real.log_lt_iff_lt_exp hF0).mpr hFexp
  rw [Real.log_rpow hF0]
  have hgoal : 0.5 + 0.5 * Real.log F < 2 := by linarith
  exact mul_lt_mul_of_pos_right hgoal gas_constant_pos

/-- Helper: the RRHO entropy of the 50 wavenumber mode exceeds twice the
gas constant. -/
lemma rrho1_50_gt_2R : 2 * GAS_CONSTANT < rrho1 50.0 298.15 1.0 := by
  have h := rrho1_50_lb
  have hx : 2 < 3.3862943606 - 5 * (PLANCK_CONSTANT * 50.0 *
      SPEED_OF_LIGHT * 1.0 / BOLTZMANN_CONSTANT / 298.15) := by
    unfold PLANCK_CONSTANT SPEED_OF_LIGHT BOLTZMANN_CONSTANT
    norm_num
  nlinarith [gas_constant_pos]

/-- Helper: head of the truhlar mode list for the C6 scenario. -/
lemma truhlar_modes_head :
    (vib_entropy_modes "truhlar" [50.0, 100.0, 300.0, 3000.0] 100.0
      298.15 1.0).headD 0 = rrho1 100.0 298.15 1.0 := by
  have hfun : (fun freq : ℝ =>
      if ("truhlar" : String) = "grimme" then
        some (rrho1 freq 298.15 1.0 * damp1 freq 100.0 +
          (1 - damp1 freq 100.0) * freerot1 freq 298.15 1.0)
      else if ("truhlar" : String) = "truhlar" then
        some (if (0.0 : ℝ) < 100.0 then
            (if (100.0 : ℝ) < freq then rrho1 freq 298.15 1.0
            else rrho1 100.0 298.15 1.0)
          else rrho1 freq 298.15 1.0)
      else none) =
      some ∘ (fun freq : ℝ => if (100.0 : ℝ) < freq then
        rrho1 freq 298.15 1.0 else rrho1 100.0 298.15 1.0) := by
    funext freq
    simp only [Function.comp_apply, if_true]
    rw [if_pos (by norm_num : (0.0 : ℝ) < 100.0),
      if_neg (by decide : ¬("truhlar" : String) = "grimme")]
  unfold vib_entropy_modes
  rw [hfun, List.filterMap_eq_map]
  simp only [List.map_cons, List.headD_cons]
  rw [if_neg (by norm_num : ¬(100.0 : ℝ) < 50.0)]

/-- Helper: head of the grimme mode list for the C6 scenario. -/
lemma grimme_modes_head :
    (vib_entropy_modes "grimme" [50.0, 100.0, 300.0, 3000.0] 100.0
      298.15 1.0).headD 0 =
      rrho1 50.0 298.15 1.0 * damp1 50.0 100.0 +
        (1 - damp1 50.0 100.0) * freerot1 50.0 298.15 1.0 := by
  have hfun : (fun freq : ℝ =>
      if ("grimme" : String) = "grimme" then
        some (rrho1 freq 298.15 1.0 * damp1 freq 100.0 +
          (1 - damp1 freq 100.0) * freerot1 freq 298.15 1.0)
      else if ("grimme" : String) = "truhlar" then
        some (if (0.0 : ℝ) < 100.0 then
            (if (100.0 : ℝ) < freq then rrho1 freq 298.15 1.0
            else rrho1 100.0 298.15 1.0)
          else rrho1 freq 298.15 1.0)
      else none) =
      some ∘ (fun freq : ℝ => rrho1 freq 298.15 1.0 * damp1 freq 100.0 +
        (1 - damp1 freq 100.0) * freerot1 freq 298.15 1.0) := by
    funext freq
    simp only [Function.comp_apply, if_true]
  unfold vib_entropy_modes
  rw [hfun, List.filterMap_eq_map]
  simp only [List.map_cons, List.headD_cons]

/-- Helper: the damping value of the 50 wavenumber mode at cutoff 100 is
exactly 1/17. -/
lemma damp1_50_100 : damp1 50.0 100.0 = 1 / 17 := by
  unfold damp1 alpha
  norm_num

/-- C6: on the frequency list [50, 100, 300, 3000] at 298.15 K with
scale factor 1 and cutoff 100, the truhlar per-mode entropy of the 50
wavenumber mode equals the RRHO entropy evaluated at the cutoff 100 (and
differs from the RRHO entropy at 50), while the grimme per-mode entropy
of that mode lies strictly between its free-rotor and its RRHO
entropy. -/
theorem claim_C6 :
    (vib_entropy_modes "truhlar" [50.0, 100.0, 300.0, 3000.0] 100.0
      298.15 1.0).headD 0 = rrho1 100.0 298.15 1.0 ∧
    (vib_entropy_modes "truhlar" [50.0, 100.0, 300.0, 3000.0] 100.0
      298.15 1.0).headD 0 ≠ rrho1 50.0 298.15 1.0 ∧
    freerot1 50.0 298.15 1.0 <
      (vib_entropy_modes "grimme" [50.0, 100.0, 300.0, 3000.0] 100.0
        298.15 1.0).headD 0 ∧
    (vib_entropy_modes "grimme" [50.0, 100.0, 300.0, 3000.0] 100.0
      298.15 1.0).headD 0 < rrho1 50.0 298.15 1.0 := by
  have h100lt50 : rrho1 100.0 298.15 1.0 < rrho1 50.0 298.15 1.0 :=
    lt_trans rrho1_100_ub rrho1_50_lb
  have hfr : freerot1 50.0 298.15 1.0 < rrho1 50.0 298.15 1.0 :=
    lt_trans freerot1_50_ub rrho1_50_gt_2R
  refine ⟨truhlar_modes_head, ?_, ?_, ?_⟩
  · rw [truhlar_modes_head]
    exact ne_of_lt h100lt50
  · rw [grimme_modes_head, damp1_50_100]
    linarith
  · rw [grimme_modes_head, damp1_50_100]
    linarith

end Claims

end GoodVibes
